import Mathlib

/-!
Shallow embedding of the credit/economy subsystem of the
astrbot_plugin_shoubanhua repository (`src/economy.py` and the
admission/refund call sites in `src/main.py`).

Python dictionaries of integer balances are modelled as total functions
`String → Int` read with default 0, matching the source's `d.get(k, 0)`;
the check-in dictionary is `String → Option String`, matching `d.get(k)`.
Configuration lookups `conf.get(key, default)` are modelled by `Option`
fields read with `Option.getD`; `conf.get(key)` (no default) reads with
`Option.getD false`, matching Python's falsy `None`.
-/

namespace Shoubanhua

/-- Pointwise update of a string-keyed map, the model of `d[k] = v`. -/
def setKey {α : Type} (f : String → α) (k : String) (v : α) : String → α :=
  fun x => if x = k then v else f x

/-- The configuration options read by `economy.py` and the refund path of
`main.py`.  A `none` field means the key is absent from the config file. -/
structure Config where
  enable_user_limit : Option Bool := none
  enable_group_limit : Option Bool := none
  enable_checkin : Option Bool := none
  checkin_fixed_reward : Option Int := none
  enable_random_checkin : Option Bool := none
  checkin_random_reward_max : Option Int := none

/-- The mutable state of `EconomyManager`: the two balance ledgers
(`user_counts`, `group_counts`) and the check-in tracker
(`user_checkin_data`). -/
structure EconState where
  user_counts : String → Int
  group_counts : String → Int
  user_checkin_data : String → Option String

/-- Model of `gid = str(group_id) if group_id else None` (economy.py line
57): an absent or empty group id is normalised to `None`. -/
def normGid (group_id : Option String) : Option String :=
  group_id.bind (fun g => if g = "" then none else some g)

/-- The value returned by `check_and_deduct` — the `(ok, msg)` pair —
together with the internal `source`/`deducted` variables (which select the
file persisted) and the post-call ledger state. -/
structure DeductResult where
  ok : Bool
  msg : String
  source : String
  deducted : Bool
  state : EconState

/-- Lines 84–118 of `economy.py`: the user-ledger check with group
fallback, the group-only branch, and the final catch-all
`return True, "未开启限制"`. -/
def deduct_user_phase (enable_user_limit enable_group_limit : Bool)
    (s : EconState) (uid : String) (gid : Option String) : DeductResult :=
  let cost : Int := 1
  if enable_user_limit then
    let u_cnt := s.user_counts uid
    if u_cnt ≥ cost then
      { ok := true, msg := "success", source := "user", deducted := true,
        state := { s with user_counts := setKey s.user_counts uid (u_cnt - cost) } }
    else
      match gid with
      | some g =>
        if enable_group_limit then
          let g_cnt := s.group_counts g
          if g_cnt ≥ cost then
            { ok := true, msg := "success", source := "group", deducted := true,
              state := { s with group_counts := setKey s.group_counts g (g_cnt - cost) } }
          else
            { ok := false,
              msg := "您的次数不足 (" ++ toString u_cnt ++ ")，且群次数也不足 (" ++ toString g_cnt ++ ")",
              source := "", deducted := false, state := s }
        else
          { ok := false, msg := "您的次数不足 (" ++ toString u_cnt ++ ")",
            source := "", deducted := false, state := s }
      | none =>
        { ok := false, msg := "您的次数不足 (" ++ toString u_cnt ++ ")",
          source := "", deducted := false, state := s }
  else
    match gid with
    | some g =>
      if enable_group_limit then
        let g_cnt := s.group_counts g
        if g_cnt ≥ cost then
          { ok := true, msg := "success", source := "group", deducted := true,
            state := { s with group_counts := setKey s.group_counts g (g_cnt - cost) } }
        else
          { ok := false, msg := "本群次数不足", source := "", deducted := false, state := s }
      else
        { ok := true, msg := "未开启限制", source := "", deducted := false, state := s }
    | none =>
      { ok := true, msg := "未开启限制", source := "", deducted := false, state := s }

/-- Model of `EconomyManager.check_and_deduct` (economy.py lines 54–118):
gate lookup with defaults (`True` for the user gate, `False` for the group
gate), the unrestricted fast path, the group-insufficiency hard veto, and
then the deduction phase. -/
def check_and_deduct (conf : Config) (s : EconState) (user_id : String)
    (group_id : Option String) : DeductResult :=
  let uid := user_id
  let gid := normGid group_id
  let enable_user_limit := conf.enable_user_limit.getD true
  let enable_group_limit := conf.enable_group_limit.getD false
  if !enable_user_limit && !enable_group_limit then
    { ok := true, msg := "无限制模式", source := "", deducted := false, state := s }
  else
    let cost : Int := 1
    match gid with
    | some g =>
      if enable_group_limit then
        if s.group_counts g < cost then
          { ok := false,
            msg := "本群剩余次数不足 (" ++ toString (s.group_counts g) ++ "次)",
            source := "", deducted := false, state := s }
        else
          deduct_user_phase enable_user_limit enable_group_limit s uid gid
      else
        deduct_user_phase enable_user_limit enable_group_limit s uid gid
    | none =>
      deduct_user_phase enable_user_limit enable_group_limit s uid gid

/-- The `(message, state)` outcome of `admin_add_points`. -/
structure AddResult where
  msg : String
  state : EconState

/-- Model of `EconomyManager.admin_add_points` (economy.py lines 148–160). -/
def admin_add_points (s : EconState) (target_id : String) (count : Int)
    ( is_group : Bool) : AddResult :=
  let tid := target_id
  if is_group then
    let curr := s.group_counts tid
    { msg := "✅ 已为群 " ++ tid ++ " 增加 " ++ toString count ++ " 次 (当前: " ++
        toString (curr + count) ++ ")",
      state := { s with group_counts := setKey s.group_counts tid (curr + count) } }
  else
    let curr := s.user_counts tid
    { msg := "✅ 已为用户 " ++ tid ++ " 增加 " ++ toString count ++ " 次 (当前: " ++
        toString (curr + count) ++ ")",
      state := { s with user_counts := setKey s.user_counts tid (curr + count) } }

/-- The refund executed by `FigurineProPlugin.on_message` when generation
fails (main.py lines 257–268): `conf.get("enable_user_limit")` (no default,
so an absent key is falsy) selects a user refund, otherwise
`conf.get("enable_group_limit")` together with a truthy group id selects a
group refund; otherwise nothing is credited. -/
def refund_on_failure (conf : Config) (s : EconState) (sender_id : String)
    (group_id : Option String) : EconState :=
  if conf.enable_user_limit.getD false then
    (admin_add_points s sender_id 1 false).state
  else
    match normGid group_id with
    | some g =>
      if conf.enable_group_limit.getD false then
        (admin_add_points s g 1 true).state
      else s
    | none => s

/-- The `(message, state)` outcome of `checkin`. -/
structure CheckinResult where
  msg : String
  state : EconState

/-- Model of `EconomyManager.checkin` (economy.py lines 120–146).  Here
`today` is the current date string `datetime.now().strftime("%Y-%m-%d")`
and `randint` is the oracle for `random.randint`. -/
def checkin (conf : Config) (randint : Int → Int → Int) (today : String)
    (s : EconState) (user_id : String) : CheckinResult :=
  if conf.enable_checkin.getD false = false then
    { msg := "❌ 签到功能未开启。", state := s }
  else
    let uid := user_id
    if s.user_checkin_data uid = some today then
      { msg := "📅 您今天已经签到过了。剩余次数: " ++ toString (s.user_counts uid),
        state := s }
    else
      let reward :=
        if conf.enable_random_checkin.getD false then
          randint 1 (max 1 (conf.checkin_random_reward_max.getD 5))
        else
          conf.checkin_fixed_reward.getD 3
      let current := s.user_counts uid
      { msg := "🎉 签到成功！获得 " ++ toString reward ++ " 次。\n当前剩余: " ++
          toString (current + reward),
        state := { s with
          user_counts := setKey s.user_counts uid (current + reward),
          user_checkin_data := setKey s.user_checkin_data uid (some today) } }

/-- Model of `EconomyManager._load_json` (economy.py lines 33–38) over an
abstract file state (`none` = file absent) and an abstract JSON parse
oracle (`none` = `json.loads` raised): absence and parse failure both
yield the empty mapping. -/
def load_json (parse : String → Option (List (String × Int)))
    (file : Option String) : List (String × Int) :=
  match file with
  | none => []
  | some txt =>
    match parse txt with
    | some d => d
    | none => []

/-- The ledger operations quantified over in the non-negativity invariant:
an admission attempt (`check_and_deduct`) or an administrative credit
(`admin_add_points`). -/
inductive Op where
  | deduct (conf : Config) (user_id : String) (group_id : Option String)
  | adminAdd (target_id : String) (count : Int) ( is_group : Bool)

/-- State transition of a single ledger operation. -/
def applyOp (s : EconState) (op : Op) : EconState :=
  match op with
  | .deduct conf u g => (check_and_deduct conf s u g).state
  | .adminAdd t c ig => (admin_add_points s t c ig).state

/-- Validity of an operation: administrative credits carry a positive
amount (the admin command parses non-negative digit strings and the refund
paths always credit 1). -/
def Op.valid : Op → Prop
  | .deduct _ _ _ => True
  | .adminAdd _ c _ => 0 < c

/-- Both ledgers hold non-negative balances. -/
def NonNeg (s : EconState) : Prop :=
  (∀ u, 0 ≤ s.user_counts u) ∧ (∀ g, 0 ≤ s.group_counts g)

/-- A state with empty ledgers and no check-in records. -/
def emptyState : EconState :=
  { user_counts := fun _ => 0, group_counts := fun _ => 0,
    user_checkin_data := fun _ => none }

/-- Crediting the admission cost back to the subject the admission debited:
a user-ledger credit to the requesting user when the debit source was
"user", otherwise a group-ledger credit to the group the request named. -/
def creditBack (conf : Config) (s : EconState) (u : String)
    (gid : Option String) : EconState :=
  if (check_and_deduct conf s u gid).source = "user" then
    (admin_add_points (check_and_deduct conf s u gid).state u 1 false).state
  else
    (admin_add_points (check_and_deduct conf s u gid).state
      ((normGid gid).getD "") 1 true).state

/-- A configuration with check-in and random rewards enabled and a
negative configured maximum, exercising the `max(1, _)` clamp. -/
def randomRewardConf : Config :=
  { enable_checkin := some true, enable_random_checkin := some true,
    checkin_random_reward_max := some (-3) }

/-- Reading an updated map at the updated key gives the new value. -/
theorem setKey_same {α : Type} (f : String → α) (k : String) (v : α) :
    setKey f k v k = v := by
  simp [setKey]

/-- Reading an updated map at any other key gives the old value. -/
theorem setKey_other {α : Type} (f : String → α) (k : String) (v : α)
    (x : String) (h : x ≠ k) : setKey f k v x = f x := by
  simp [setKey, h]

/-- Exhaustive shape analysis of the deduction phase: either nothing was
deducted and the state is untouched, or exactly one ledger entry was
debited by the cost 1 after a sufficiency check. -/
theorem deduct_user_phase_cases (eul egl : Bool) (s : EconState) (uid : String)
    (gid : Option String) :
    ((deduct_user_phase eul egl s uid gid).deducted = false ∧
      (deduct_user_phase eul egl s uid gid).state = s) ∨
    ((deduct_user_phase eul egl s uid gid).deducted = true ∧
      (deduct_user_phase eul egl s uid gid).ok = true ∧
      (((deduct_user_phase eul egl s uid gid).source = "user" ∧
         1 ≤ s.user_counts uid ∧
         (deduct_user_phase eul egl s uid gid).state =
           { s with user_counts := setKey s.user_counts uid (s.user_counts uid - 1) }) ∨
       (∃ g, gid = some g ∧ (deduct_user_phase eul egl s uid gid).source = "group" ∧
         1 ≤ s.group_counts g ∧
         (deduct_user_phase eul egl s uid gid).state =
           { s with group_counts := setKey s.group_counts g (s.group_counts g - 1) }))) := by
  simp only [deduct_user_phase]
  cases gid with
  | none =>
    dsimp only
    split_ifs with h1 h2 <;>
      first
        | exact Or.inl ⟨rfl, rfl⟩
        | exact Or.inr ⟨rfl, rfl, Or.inl ⟨rfl, by omega, rfl⟩⟩
  | some g =>
    dsimp only
    split_ifs with h1 h2 h3 h4 h5 <;>
      first
        | exact Or.inl ⟨rfl, rfl⟩
        | exact Or.inr ⟨rfl, rfl, Or.inl ⟨rfl, by omega, rfl⟩⟩
        | exact Or.inr ⟨rfl, rfl, Or.inr ⟨g, rfl, rfl, by omega, rfl⟩⟩

/-- Exhaustive shape analysis of a full admission attempt. -/
theorem check_and_deduct_cases (conf : Config) (s : EconState) (u : String)
    (gid : Option String) :
    ((check_and_deduct conf s u gid).deducted = false ∧
      (check_and_deduct conf s u gid).state = s) ∨
    ((check_and_deduct conf s u gid).deducted = true ∧
      (check_and_deduct conf s u gid).ok = true ∧
      (((check_and_deduct conf s u gid).source = "user" ∧
         1 ≤ s.user_counts u ∧
         (check_and_deduct conf s u gid).state =
           { s with user_counts := setKey s.user_counts u (s.user_counts u - 1) }) ∨
       (∃ g, normGid gid = some g ∧ (check_and_deduct conf s u gid).source = "group" ∧
         1 ≤ s.group_counts g ∧
         (check_and_deduct conf s u gid).state =
           { s with group_counts := setKey s.group_counts g (s.group_counts g - 1) }))) := by
  simp only [check_and_deduct]
  cases hng : normGid gid with
  | none =>
    dsimp only
    split_ifs with h1
    · exact Or.inl ⟨rfl, rfl⟩
    · simpa using deduct_user_phase_cases (conf.enable_user_limit.getD true)
        (conf.enable_group_limit.getD false) s u none
  | some g =>
    dsimp only
    split_ifs with h1 h2 h3
    · exact Or.inl ⟨rfl, rfl⟩
    · exact Or.inl ⟨rfl, rfl⟩
    · exact deduct_user_phase_cases _ _ s u (some g)
    · exact deduct_user_phase_cases _ _ s u (some g)

/-- A rejected admission leaves the state untouched. -/
theorem check_and_deduct_reject_state (conf : Config) (s : EconState) (u : String)
    (gid : Option String) (h : (check_and_deduct conf s u gid).ok = false) :
    (check_and_deduct conf s u gid).state = s := by
  rcases check_and_deduct_cases conf s u gid with ⟨_, hs⟩ | ⟨_, hok, _⟩
  · exact hs
  · rw [hok] at h; cases h

/-- An admission attempt preserves non-negativity of both ledgers. -/
theorem nonneg_check_and_deduct (conf : Config) (s : EconState) (u : String)
    (gid : Option String) (h : NonNeg s) :
    NonNeg (check_and_deduct conf s u gid).state := by
  obtain ⟨h1, h2⟩ := h
  rcases check_and_deduct_cases conf s u gid with
    ⟨_, hs⟩ | ⟨_, _, ⟨_, hge, hs⟩ | ⟨g, _, _, hge, hs⟩⟩
  · rw [hs]; exact ⟨h1, h2⟩
  · rw [hs]
    refine ⟨fun x => ?_, h2⟩
    simp only [setKey]
    split
    · omega
    · exact h1 x
  · rw [hs]
    refine ⟨h1, fun x => ?_⟩
    simp only [setKey]
    split
    · omega
    · exact h2 x

/-- A non-negative administrative credit preserves non-negativity. -/
theorem nonneg_admin_add_points (s : EconState) (t : String) (c : Int) (ig : Bool)
    (h : NonNeg s) (hc : 0 ≤ c) : NonNeg (admin_add_points s t c ig).state := by
  obtain ⟨h1, h2⟩ := h
  cases ig with
  | false =>
    constructor
    · intro x
      show 0 ≤ setKey s.user_counts t (s.user_counts t + c) x
      simp only [setKey]
      split
      · have := h1 t; omega
      · exact h1 x
    · intro x
      show 0 ≤ s.group_counts x
      exact h2 x
  | true =>
    constructor
    · intro x
      show 0 ≤ s.user_counts x
      exact h1 x
    · intro x
      show 0 ≤ setKey s.group_counts t (s.group_counts t + c) x
      simp only [setKey]
      split
      · have := h2 t; omega
      · exact h2 x

/-- Non-negativity is preserved by any sequence of valid operations. -/
theorem nonneg_foldl (ops : List Op) :
    ∀ s, NonNeg s → (∀ op ∈ ops, op.valid) → NonNeg (ops.foldl applyOp s) := by
  induction ops with
  | nil => intro s h _; exact h
  | cons op rest ih =>
    intro s h hv
    simp only [List.foldl_cons]
    refine ih _ ?_ (fun op' hop' => hv op' (List.mem_cons_of_mem _ hop'))
    cases op with
    | deduct conf u g => exact nonneg_check_and_deduct conf s u g h
    | adminAdd t c ig =>
      have hval : (0:Int) < c := hv _ (List.mem_cons_self _ _)
      exact nonneg_admin_add_points s t c ig h (le_of_lt hval)

/-- C1: starting from non-negative balances, any sequence of admission
debits (cost 1) and positive administrative credits keeps every user and
group balance non-negative, and a rejected admission (admitted = false)
leaves every balance unchanged. -/
theorem ledger_nonneg_invariant (s0 : EconState) (ops : List Op)
    (h0 : NonNeg s0) (hv : ∀ op ∈ ops, op.valid)
    (conf : Config) (s : EconState) (u : String) (gid : Option String)
    (hrej : (check_and_deduct conf s u gid).ok = false) :
    NonNeg (ops.foldl applyOp s0) ∧ (check_and_deduct conf s u gid).state = s :=
  ⟨nonneg_foldl ops s0 h0 hv, check_and_deduct_reject_state conf s u gid hrej⟩

/-- Witness for C1 at a concrete operation sequence: credit 2 to a user
then attempt three debits; the resulting balances are non-negative and a
rejected admission under the default configuration leaves the empty state
unchanged. -/
theorem ledger_nonneg_invariant_witness :
    NonNeg ([Op.adminAdd "u" 2 false, Op.deduct {} "u" none,
      Op.deduct {} "u" none, Op.deduct {} "u" none].foldl applyOp emptyState) ∧
    (check_and_deduct {} emptyState "u" none).state = emptyState :=
  ledger_nonneg_invariant emptyState _
    (by constructor <;> intro x <;> exact le_refl 0)
    (by intro op hop
        simp only [List.mem_cons, List.not_mem_nil, or_false] at hop
        rcases hop with rfl | rfl | rfl | rfl <;> simp [Op.valid])
    {} emptyState "u" none rfl

/-- C2: with both gates enabled, user balance 0 and group balance 5, the
admission debits the group ledger (source = "group", group balance 4), but
the downstream-failure refund path of `on_message` re-reads the gate flags
and credits the USER ledger instead: after the refund the group ledger
still holds 4 (not its pre-debit value 5) and the user ledger holds 1.
This evaluates the code at the failing input of the claim. -/
theorem refund_after_group_fallback_credits_user :
    (check_and_deduct { enable_user_limit := some true, enable_group_limit := some true }
      { user_counts := fun _ => 0, group_counts := setKey (fun _ => 0) "g" 5,
        user_checkin_data := fun _ => none } "u" (some "g")).ok = true ∧
    (check_and_deduct { enable_user_limit := some true, enable_group_limit := some true }
      { user_counts := fun _ => 0, group_counts := setKey (fun _ => 0) "g" 5,
        user_checkin_data := fun _ => none } "u" (some "g")).source = "group" ∧
    (check_and_deduct { enable_user_limit := some true, enable_group_limit := some true }
      { user_counts := fun _ => 0, group_counts := setKey (fun _ => 0) "g" 5,
        user_checkin_data := fun _ => none } "u" (some "g")).state.group_counts "g" = 4 ∧
    (refund_on_failure { enable_user_limit := some true, enable_group_limit := some true }
      (check_and_deduct { enable_user_limit := some true, enable_group_limit := some true }
        { user_counts := fun _ => 0, group_counts := setKey (fun _ => 0) "g" 5,
          user_checkin_data := fun _ => none } "u" (some "g")).state
      "u" (some "g")).group_counts "g" = 4 ∧
    (refund_on_failure { enable_user_limit := some true, enable_group_limit := some true }
      (check_and_deduct { enable_user_limit := some true, enable_group_limit := some true }
        { user_counts := fun _ => 0, group_counts := setKey (fun _ => 0) "g" 5,
          user_checkin_data := fun _ => none } "u" (some "g")).state
      "u" (some "g")).user_counts "u" = 1 := by
  decide

/-- C3: whenever the group gate is enabled, a non-empty group id is
present and the group balance is below the cost 1, the admission is
rejected with the group-insufficiency message and neither ledger is
mutated, for every user balance. -/
theorem group_veto_rejects (conf : Config) (s : EconState) (u g : String)
    (hg : g ≠ "") (hegl : conf.enable_group_limit.getD false = true)
    (hlow : s.group_counts g < 1) :
    (check_and_deduct conf s u (some g)).ok = false ∧
    (check_and_deduct conf s u (some g)).state = s ∧
    (check_and_deduct conf s u (some g)).msg =
      "本群剩余次数不足 (" ++ toString (s.group_counts g) ++ "次)" := by
  have hng : normGid (some g) = some g := by simp [normGid, hg]
  simp [check_and_deduct, hng, hegl, hlow]

/-- Witness for C3 at the concrete hard-veto input of the claim: user
balance 10, group balance 0, both gates enabled. -/
theorem group_veto_rejects_witness :
    ("g" ≠ "") ∧
    ((check_and_deduct
        { enable_user_limit := some true, enable_group_limit := some true }
        { user_counts := setKey (fun _ => 0) "u" 10, group_counts := fun _ => 0,
          user_checkin_data := fun _ => none } "u" (some "g")).ok = false ∧
      (check_and_deduct
        { enable_user_limit := some true, enable_group_limit := some true }
        { user_counts := setKey (fun _ => 0) "u" 10, group_counts := fun _ => 0,
          user_checkin_data := fun _ => none } "u" (some "g")).state =
        { user_counts := setKey (fun _ => 0) "u" 10, group_counts := fun _ => 0,
          user_checkin_data := fun _ => none } ∧
      (check_and_deduct
        { enable_user_limit := some true, enable_group_limit := some true }
        { user_counts := setKey (fun _ => 0) "u" 10, group_counts := fun _ => 0,
          user_checkin_data := fun _ => none } "u" (some "g")).msg =
        "本群剩余次数不足 (" ++ toString ((fun _ => (0:Int)) "g") ++ "次)") :=
  ⟨by decide,
   group_veto_rejects _ _ "u" "g" (by decide) rfl (by decide)⟩

/-- C4: with both gates enabled, a non-empty group id, user balance 0 and
group balance 5, the admission succeeds from source "group", the user
balance stays 0 and the group balance becomes 4. -/
theorem group_fallback_debits_group (conf : Config) (s : EconState) (u g : String)
    (hg : g ≠ "")
    (hul : conf.enable_user_limit.getD true = true)
    (hegl : conf.enable_group_limit.getD false = true)
    (hu0 : s.user_counts u = 0) (hg5 : s.group_counts g = 5) :
    (check_and_deduct conf s u (some g)).ok = true ∧
    (check_and_deduct conf s u (some g)).source = "group" ∧
    (check_and_deduct conf s u (some g)).state.user_counts u = 0 ∧
    (check_and_deduct conf s u (some g)).state.group_counts g = 4 := by
  have hng : normGid (some g) = some g := by simp [normGid, hg]
  simp [check_and_deduct, deduct_user_phase, hng, hul, hegl, hu0, hg5, setKey]

/-- Witness for C4 at the concrete fallback input of the claim. -/
theorem group_fallback_debits_group_witness :
    ("g" ≠ "") ∧
    ((check_and_deduct
        { enable_user_limit := some true, enable_group_limit := some true }
        { user_counts := fun _ => 0, group_counts := setKey (fun _ => 0) "g" 5,
          user_checkin_data := fun _ => none } "u" (some "g")).ok = true ∧
      (check_and_deduct
        { enable_user_limit := some true, enable_group_limit := some true }
        { user_counts := fun _ => 0, group_counts := setKey (fun _ => 0) "g" 5,
          user_checkin_data := fun _ => none } "u" (some "g")).source = "group" ∧
      (check_and_deduct
        { enable_user_limit := some true, enable_group_limit := some true }
        { user_counts := fun _ => 0, group_counts := setKey (fun _ => 0) "g" 5,
          user_checkin_data := fun _ => none } "u" (some "g")).state.user_counts "u" = 0 ∧
      (check_and_deduct
        { enable_user_limit := some true, enable_group_limit := some true }
        { user_counts := fun _ => 0, group_counts := setKey (fun _ => 0) "g" 5,
          user_checkin_data := fun _ => none } "u" (some "g")).state.group_counts "g" = 4) :=
  ⟨by decide,
   group_fallback_debits_group _ _ "u" "g" (by decide) rfl rfl rfl (by decide)⟩

/-- C5 counterexample: the step-5 catch-all (`return True, "未开启限制"`,
economy.py line 118) IS reached — with the user gate disabled, the group
gate enabled and no group id, the request is admitted with no debit and
exactly that message, refuting the claim that the branch is unreachable. -/
theorem catchall_branch_reached :
    (check_and_deduct { enable_user_limit := some false, enable_group_limit := some true }
       emptyState "u" none).ok = true ∧
    (check_and_deduct { enable_user_limit := some false, enable_group_limit := some true }
       emptyState "u" none).deducted = false ∧
    (check_and_deduct { enable_user_limit := some false, enable_group_limit := some true }
       emptyState "u" none).msg = "未开启限制" := by
  decide

/-- C5 (amended): the catch-all branch (admitted, no debit, message
"未开启限制") is reached exactly when the user gate is disabled, the group
gate is enabled and no (non-empty) group id is present; on every other
input the decision comes from policy steps 1–4. -/
theorem catchall_characterisation (conf : Config) (s : EconState) (u : String)
    (gid : Option String) :
    ((check_and_deduct conf s u gid).ok = true ∧
     (check_and_deduct conf s u gid).deducted = false ∧
     (check_and_deduct conf s u gid).msg = "未开启限制") ↔
    (conf.enable_user_limit.getD true = false ∧
     conf.enable_group_limit.getD false = true ∧
     normGid gid = none) := by
  simp only [check_and_deduct, deduct_user_phase]
  cases hng : normGid gid <;>
    cases hu : conf.enable_user_limit.getD true <;>
      cases hgl : conf.enable_group_limit.getD false <;>
        first
          | decide
          | (dsimp only; split_ifs <;> simp_all)

/-- C6: after any admitted debit (cost 1), crediting 1 back to the same
subject in the same ledger named by the debit source restores every user
and group balance to its pre-debit value. -/
theorem debit_refund_conservation (conf : Config) (s : EconState) (u : String)
    (gid : Option String) (x : String)
    (hd : (check_and_deduct conf s u gid).deducted = true) :
    (creditBack conf s u gid).user_counts x = s.user_counts x ∧
    (creditBack conf s u gid).group_counts x = s.group_counts x := by
  rcases check_and_deduct_cases conf s u gid with
    ⟨hdf, _⟩ | ⟨_, _, ⟨hsrc, h1, hs⟩ | ⟨g, hgg, hsrc, h1, hs⟩⟩
  · rw [hdf] at hd; cases hd
  · unfold creditBack
    rw [hsrc, hs, if_pos rfl]
    constructor
    · show setKey (setKey s.user_counts u (s.user_counts u - 1)) u
        (setKey s.user_counts u (s.user_counts u - 1) u + 1) x = s.user_counts x
      by_cases hx : x = u
      · subst hx; rw [setKey_same, setKey_same]; omega
      · rw [setKey_other _ _ _ _ hx, setKey_other _ _ _ _ hx]
    · rfl
  · unfold creditBack
    rw [hsrc, hs, hgg]
    rw [if_neg (by decide)]
    constructor
    · rfl
    · show setKey (setKey s.group_counts g (s.group_counts g - 1)) g
        (setKey s.group_counts g (s.group_counts g - 1) g + 1) x = s.group_counts x
      by_cases hx : x = g
      · subst hx; rw [setKey_same, setKey_same]; omega
      · rw [setKey_other _ _ _ _ hx, setKey_other _ _ _ _ hx]

/-- Witness for C6 at a concrete group-fallback debit followed by a credit
back to the same group. -/
theorem debit_refund_conservation_witness :
    ((check_and_deduct { enable_user_limit := some true, enable_group_limit := some true }
       { user_counts := fun _ => 0, group_counts := setKey (fun _ => 0) "g" 5,
         user_checkin_data := fun _ => none } "u" (some "g")).deducted = true) ∧
    (creditBack { enable_user_limit := some true, enable_group_limit := some true }
       { user_counts := fun _ => 0, group_counts := setKey (fun _ => 0) "g" 5,
         user_checkin_data := fun _ => none } "u" (some "g")).user_counts "g" =
      (0:Int) ∧
    (creditBack { enable_user_limit := some true, enable_group_limit := some true }
       { user_counts := fun _ => 0, group_counts := setKey (fun _ => 0) "g" 5,
         user_checkin_data := fun _ => none } "u" (some "g")).group_counts "g" =
      setKey (fun _ => (0:Int)) "g" 5 "g" :=
  ⟨by decide,
   (debit_refund_conservation _ _ "u" (some "g") "g" (by decide)).1,
   (debit_refund_conservation _ _ "u" (some "g") "g" (by decide)).2⟩

/-- C7: with check-in enabled, a second `checkin` call on the same date
for the same user reports already-checked-in and returns the state of the
first call unchanged, so the reward is granted at most once per day. -/
theorem checkin_idempotent (conf : Config) (randint : Int → Int → Int)
    (today : String) (s : EconState) (u : String)
    (hc : conf.enable_checkin.getD false = true) :
    (checkin conf randint today (checkin conf randint today s u).state u).state =
      (checkin conf randint today s u).state ∧
    (checkin conf randint today (checkin conf randint today s u).state u).msg =
      "📅 您今天已经签到过了。剩余次数: " ++
        toString ((checkin conf randint today s u).state.user_counts u) := by
  have hcf : ¬ conf.enable_checkin.getD false = false := by rw [hc]; decide
  have hrec : (checkin conf randint today s u).state.user_checkin_data u = some today := by
    simp only [checkin]
    rw [if_neg hcf]
    by_cases h2 : s.user_checkin_data u = some today
    · rw [if_pos h2]; exact h2
    · rw [if_neg h2]; exact setKey_same _ _ _
  generalize (checkin conf randint today s u).state = s1 at hrec ⊢
  simp only [checkin]
  rw [if_neg hcf, if_pos hrec]
  exact ⟨rfl, rfl⟩

/-- Witness for C7: double check-in of one user on one concrete date. -/
theorem checkin_idempotent_witness :
    (checkin { enable_checkin := some true } (fun a _ => a) "2026-10-12"
      (checkin { enable_checkin := some true } (fun a _ => a) "2026-10-12" emptyState "u").state
        "u").state =
      (checkin { enable_checkin := some true } (fun a _ => a) "2026-10-12" emptyState "u").state ∧
    (checkin { enable_checkin := some true } (fun a _ => a) "2026-10-12"
      (checkin { enable_checkin := some true } (fun a _ => a) "2026-10-12" emptyState "u").state
        "u").msg =
      "📅 您今天已经签到过了。剩余次数: " ++
        toString ((checkin { enable_checkin := some true } (fun a _ => a) "2026-10-12"
          emptyState "u").state.user_counts "u") :=
  checkin_idempotent { enable_checkin := some true } (fun a _ => a) "2026-10-12"
    emptyState "u" rfl

/-- C8: for a granted check-in, if random check-in is enabled the granted
amount (observed as the balance increase) lies in
[1, max 1 checkin_random_reward_max] — also when the configured maximum is
zero or negative — and if it is disabled the amount equals the configured
fixed reward; the random draw is an oracle satisfying the documented
contract of `random.randint`. -/
theorem checkin_reward_range (conf : Config) (randint : Int → Int → Int)
    (today : String) (s : EconState) (u : String)
    (hc : conf.enable_checkin.getD false = true)
    (hnew : s.user_checkin_data u ≠ some today)
    (hr : ∀ b : Int, 1 ≤ b → 1 ≤ randint 1 b ∧ randint 1 b ≤ b) :
    (conf.enable_random_checkin.getD false = true →
      1 ≤ (checkin conf randint today s u).state.user_counts u - s.user_counts u ∧
      (checkin conf randint today s u).state.user_counts u - s.user_counts u ≤
        max 1 (conf.checkin_random_reward_max.getD 5)) ∧
    (conf.enable_random_checkin.getD false = false →
      (checkin conf randint today s u).state.user_counts u - s.user_counts u =
        conf.checkin_fixed_reward.getD 3) := by
  obtain ⟨hr1, hr2⟩ :=
    hr (max 1 (conf.checkin_random_reward_max.getD 5)) (le_max_left _ _)
  have hcf : ¬ conf.enable_checkin.getD false = false := by rw [hc]; decide
  constructor
  · intro hrand
    simp only [checkin]
    rw [if_neg hcf, if_neg hnew, if_pos hrand]
    dsimp only
    rw [setKey_same]
    constructor <;> omega
  · intro hfix
    have hfix2 : ¬ conf.enable_random_checkin.getD false = true := by rw [hfix]; decide
    simp only [checkin]
    rw [if_neg hcf, if_neg hnew, if_neg hfix2]
    dsimp only
    rw [setKey_same]
    omega

/-- Witness for C8 with a negative configured maximum (-3), a concrete
lower-endpoint random oracle and a fresh user. -/
theorem checkin_reward_range_witness :
    (randomRewardConf.enable_random_checkin.getD false = true →
      1 ≤ (checkin randomRewardConf (fun a _ => a) "2026-10-12"
            emptyState "u").state.user_counts "u" - emptyState.user_counts "u" ∧
      (checkin randomRewardConf (fun a _ => a) "2026-10-12"
            emptyState "u").state.user_counts "u" - emptyState.user_counts "u" ≤
        max 1 (randomRewardConf.checkin_random_reward_max.getD 5)) ∧
    (randomRewardConf.enable_random_checkin.getD false = false →
      (checkin randomRewardConf (fun a _ => a) "2026-10-12"
            emptyState "u").state.user_counts "u" - emptyState.user_counts "u" =
        randomRewardConf.checkin_fixed_reward.getD 3) :=
  checkin_reward_range randomRewardConf (fun a _ => a) "2026-10-12" emptyState "u"
    rfl (by decide) (fun b hb => ⟨le_refl 1, hb⟩)

/-- C9: the store load never raises — a missing file yields the empty
mapping, a file whose contents fail to parse yields the empty mapping,
and a parsable file yields exactly the parsed mapping. -/
theorem load_json_resilient (parse : String → Option (List (String × Int)))
    (good bad : String) (d : List (String × Int))
    (hbad : parse bad = none) (hgood : parse good = some d) :
    load_json parse none = [] ∧
    load_json parse (some bad) = [] ∧
    load_json parse (some good) = d := by
  refine ⟨rfl, ?_, ?_⟩ <;> simp [load_json, hbad, hgood]

/-- Witness for C9 with a concrete parse oracle accepting only "ok". -/
theorem load_json_resilient_witness :
    load_json (fun t => if t = "ok" then some [("a", 1)] else none) none = [] ∧
    load_json (fun t => if t = "ok" then some [("a", 1)] else none) (some "xx") = [] ∧
    load_json (fun t => if t = "ok" then some [("a", 1)] else none) (some "ok") = [("a", 1)] :=
  load_json_resilient (fun t => if t = "ok" then some [("a", 1)] else none)
    "ok" "xx" [("a", 1)] (by decide) (by decide)

/-- C10: with neither gate key present in the configuration, the user gate
defaults to enabled and the group gate to disabled, so a request from a
user with balance 0 — with or without a group id — is rejected with the
user-insufficiency reason and no mutation, not admitted as unrestricted. -/
theorem default_gates_reject_user (conf : Config) (s : EconState) (u : String)
    (gid : Option String)
    (hul : conf.enable_user_limit = none)
    (hgl : conf.enable_group_limit = none)
    (hu0 : s.user_counts u = 0) :
    (check_and_deduct conf s u gid).ok = false ∧
    (check_and_deduct conf s u gid).msg = "您的次数不足 (0)" ∧
    (check_and_deduct conf s u gid).state = s := by
  cases hng : normGid gid with
  | none =>
    simp [check_and_deduct, deduct_user_phase, hng, hul, hgl, hu0]
    decide
  | some g =>
    simp [check_and_deduct, deduct_user_phase, hng, hul, hgl, hu0]
    decide

/-- Witness for C10: empty configuration, zero-balance user, group id
present. -/
theorem default_gates_reject_user_witness :
    ((check_and_deduct {} emptyState "u" (some "g")).ok = false ∧
     (check_and_deduct {} emptyState "u" (some "g")).msg = "您的次数不足 (0)" ∧
     (check_and_deduct {} emptyState "u" (some "g")).state = emptyState) :=
  default_gates_reject_user {} emptyState "u" (some "g") rfl rfl rfl

end Shoubanhua
